import Mathlib

/-!
Verification of the OATS synchronization engine and orchestration layer.

Each definition is a shallow embedding of the corresponding TypeScript
source in the repository (file and line references are given on each
definition).  Machine-level concerns (timers, OS signals, the HTTP stack)
appear as explicit parameters or oracles; the single-threaded event-loop
concurrency of Node.js is modelled by run-to-completion steps on explicit
state, which is faithful because the source never interleaves two
statements of the same synchronous block.
-/

namespace Oats

/-! ### JSON documents

A parsed OpenAPI document, as handed to the change detector
(`SwaggerChangeDetector` in `src/core/swagger-diff.js`, consumed by
`DevSyncEngine.checkForMeaningfulChanges`).  Object members are kept as an
ordered association list so that key-order differences between two
documents are representable; whitespace differences of the concrete JSON
text vanish at parse time and therefore have no counterpart here.
-/

inductive Json where
  | null : Json
  | bool (b : Bool) : Json
  | num (n : Int) : Json
  | str (s : String) : Json
  | arr (xs : List Json) : Json
  | obj (kvs : List (String × Json)) : Json

/-- Boolean key comparison used to canonicalize object member order. -/
def keyLe (a b : String × Json) : Bool := decide (a.1 ≤ b.1)

/-- Sort object members by key (the normalization pass of the detector). -/
def sortPairs (l : List (String × Json)) : List (String × Json) :=
  l.mergeSort keyLe

/-!
Modelled from the spec: the repository file `src/core/swagger-diff.js`
(the `SwaggerChangeDetector` used by `DevSyncEngine`) is not among the
available sources, so `normalize`, the signature computation and the
detector below follow section 4.1 of the specification: normalize the
document to eliminate insignificant variation (key ordering,
whitespace-only differences), compute a stable signature of the
normalized document, compare with the previously stored signature,
treat a missing baseline as changed, and record the newly computed
signature.
-/

mutual

/-- Modelled from the spec: recursive normalization of a document — object
members are sorted by key, arrays keep their order, atoms are unchanged. -/
def normalize : Json → Json
  | .null => .null
  | .bool b => .bool b
  | .num n => .num n
  | .str s => .str s
  | .arr xs => .arr (normalizeList xs)
  | .obj kvs => .obj (sortPairs (normalizePairs kvs))

/-- Normalization mapped over the elements of an array. -/
def normalizeList : List Json → List Json
  | [] => []
  | x :: xs => normalize x :: normalizeList xs

/-- Normalization mapped over the values of an object. -/
def normalizePairs : List (String × Json) → List (String × Json)
  | [] => []
  | p :: ps => (p.1, normalize p.2) :: normalizePairs ps

end

mutual

/-- Modelled from the spec: a canonical textual rendering of a document,
used as the stable signature of its normalized form. -/
def canonical : Json → String
  | .null => "null"
  | .bool b => cond b "true" "false"
  | .num n => toString n
  | .str s => "s(" ++ s ++ ")"
  | .arr xs => "a(" ++ canonicalList xs ++ ")"
  | .obj kvs => "o(" ++ canonicalPairs kvs ++ ")"

/-- Canonical rendering of an array body. -/
def canonicalList : List Json → String
  | [] => ""
  | x :: xs => canonical x ++ ";" ++ canonicalList xs

/-- Canonical rendering of an object body. -/
def canonicalPairs : List (String × Json) → String
  | [] => ""
  | p :: ps => p.1 ++ ":" ++ canonical p.2 ++ ";" ++ canonicalPairs ps

end

/-- Modelled from the spec: the stable signature of a document is the
canonical rendering of its normalized form. -/
def signature (j : Json) : String := canonical (normalize j)

/-- Modelled from the spec: detector state — the signature of the
last-processed document (`getCurrentHash() -> string|null`). -/
structure SwaggerChangeDetector where
  previousHash : Option String
deriving DecidableEq

/-- Modelled from the spec: `getCurrentHash` returns the stored signature. -/
def getCurrentHash (det : SwaggerChangeDetector) : Option String :=
  det.previousHash

/-- Modelled from the spec: `hasSignificantChanges(newSpec)` — compute the
signature of the new document, compare with the stored baseline (no
baseline counts as changed), and record the newly computed signature. -/
def hasSignificantChanges (det : SwaggerChangeDetector) (newSpec : Json) :
    Bool × SwaggerChangeDetector :=
  let h := signature newSpec
  match det.previousHash with
  | none => (true, ⟨some h⟩)
  | some p => ((if p = h then false else true), ⟨some h⟩)

mutual

/-- A well-formed document: every object has pairwise-distinct keys (the
JSON object invariant every parsed OpenAPI document satisfies). -/
def wellFormed : Json → Bool
  | .null => true
  | .bool _ => true
  | .num _ => true
  | .str _ => true
  | .arr xs => wellFormedList xs
  | .obj kvs => decide (kvs.map Prod.fst).Nodup && wellFormedPairs kvs

/-- Well-formedness of every element of an array. -/
def wellFormedList : List Json → Bool
  | [] => true
  | x :: xs => wellFormed x && wellFormedList xs

/-- Well-formedness of every value of an object. -/
def wellFormedPairs : List (String × Json) → Bool
  | [] => true
  | p :: ps => wellFormed p.2 && wellFormedPairs ps

end

/-- Two documents are structurally identical up to object key order:
atoms agree, arrays agree pointwise, and objects agree after permuting
members and relating values recursively. -/
inductive SameModKeyOrder : Json → Json → Prop where
  | null : SameModKeyOrder .null .null
  | bool (b : Bool) : SameModKeyOrder (.bool b) (.bool b)
  | num (n : Int) : SameModKeyOrder (.num n) (.num n)
  | str (s : String) : SameModKeyOrder (.str s) (.str s)
  | arrNil : SameModKeyOrder (.arr []) (.arr [])
  | arrCons {x y : Json} {xs ys : List Json} :
      SameModKeyOrder x y → SameModKeyOrder (.arr xs) (.arr ys) →
      SameModKeyOrder (.arr (x :: xs)) (.arr (y :: ys))
  | objNil : SameModKeyOrder (.obj []) (.obj [])
  | objCons {k : String} {v w : Json} {kvs kws : List (String × Json)} :
      SameModKeyOrder v w → SameModKeyOrder (.obj kvs) (.obj kws) →
      SameModKeyOrder (.obj ((k, v) :: kvs)) (.obj ((k, w) :: kws))
  | objPerm {kvs kvs' kws : List (String × Json)} :
      kvs.Perm kvs' → SameModKeyOrder (.obj kvs') (.obj kws) →
      SameModKeyOrder (.obj kvs) (.obj kws)

theorem keyLe_trans (a b c : String × Json) :
    keyLe a b = true → keyLe b c = true → keyLe a c = true := by
  simp only [keyLe, decide_eq_true_iff]
  exact le_trans

theorem keyLe_total (a b : String × Json) : (keyLe a b || keyLe b a) = true := by
  simp only [keyLe, Bool.or_eq_true, decide_eq_true_iff]
  exact le_total a.1 b.1

theorem sortPairs_perm (l : List (String × Json)) : (sortPairs l).Perm l :=
  List.mergeSort_perm l keyLe

theorem sortPairs_sorted_strict (l : List (String × Json))
    (hnd : (l.map Prod.fst).Nodup) :
    (sortPairs l).Pairwise (fun a b => a.1 < b.1) := by
  have h1 : (sortPairs l).Pairwise (fun a b => keyLe a b = true) :=
    List.sorted_mergeSort keyLe_trans keyLe_total l
  have hnd' : ((sortPairs l).map Prod.fst).Nodup := by
    rw [((sortPairs_perm l).map Prod.fst).nodup_iff]
    exact hnd
  have h2 : (sortPairs l).Pairwise (fun a b => a.1 ≠ b.1) :=
    List.pairwise_map.mp hnd'
  exact (h1.and h2).imp fun h =>
    lt_of_le_of_ne (by simpa [keyLe] using h.1) h.2

theorem sortPairs_eq_of_perm {l l' : List (String × Json)} (h : l.Perm l')
    (hnd : (l.map Prod.fst).Nodup) : sortPairs l = sortPairs l' := by
  haveI : IsAntisymm (String × Json) (fun a b => a.1 < b.1) :=
    ⟨fun a b h1 h2 => absurd h2 (lt_asymm h1)⟩
  have hnd' : (l'.map Prod.fst).Nodup := by
    rw [← ((h.map Prod.fst)).nodup_iff]
    exact hnd
  exact List.eq_of_perm_of_sorted
    (((sortPairs_perm l).trans h).trans (sortPairs_perm l').symm)
    (sortPairs_sorted_strict l hnd) (sortPairs_sorted_strict l' hnd')

theorem normalizePairs_eq_map (l : List (String × Json)) :
    normalizePairs l = l.map fun p => (p.1, normalize p.2) := by
  induction l with
  | nil => rfl
  | cons p ps ih => simp [normalizePairs, ih]

theorem normalizePairs_fst (l : List (String × Json)) :
    (normalizePairs l).map Prod.fst = l.map Prod.fst := by
  rw [normalizePairs_eq_map]
  simp [List.map_map, Function.comp]

theorem wellFormedPairs_iff {l : List (String × Json)} :
    wellFormedPairs l = true ↔ ∀ p ∈ l, wellFormed p.2 = true := by
  induction l with
  | nil => simp [wellFormedPairs]
  | cons p ps ih => simp [wellFormedPairs, Bool.and_eq_true, ih]

theorem wellFormed_obj_iff {kvs : List (String × Json)} :
    wellFormed (.obj kvs) = true ↔
      (kvs.map Prod.fst).Nodup ∧ ∀ p ∈ kvs, wellFormed p.2 = true := by
  simp [wellFormed, Bool.and_eq_true, wellFormedPairs_iff]

theorem wellFormed_obj_perm {kvs kvs' : List (String × Json)}
    (hp : kvs.Perm kvs') (h : wellFormed (.obj kvs) = true) :
    wellFormed (.obj kvs') = true := by
  rw [wellFormed_obj_iff] at h ⊢
  refine ⟨?_, ?_⟩
  · rw [← (hp.map Prod.fst).nodup_iff]
    exact h.1
  · intro p hm
    exact h.2 p (hp.symm.subset hm)

/-- Structural identity up to key order is invisible to normalization,
provided every object of the left document has distinct keys. -/
theorem normalize_eq_of_sameModKeyOrder {d d' : Json}
    (he : SameModKeyOrder d d') :
    wellFormed d = true → normalize d = normalize d' := by
  induction he with
  | null => intro _; rfl
  | bool b => intro _; rfl
  | num n => intro _; rfl
  | str s => intro _; rfl
  | arrNil => intro _; rfl
  | arrCons hx hxs ihx ihxs =>
      intro hwf
      simp only [wellFormed, wellFormedList, Bool.and_eq_true] at hwf
      have h1 := ihx hwf.1
      have h2 := ihxs (by simpa [wellFormed] using hwf.2)
      simp only [normalize, normalizeList, Json.arr.injEq] at h2 ⊢
      rw [h1, h2]
  | objNil => intro _; rfl
  | objCons hv hobj ihv ihobj =>
      rename_i k v w kvs kws
      intro hwf
      rw [wellFormed_obj_iff] at hwf
      obtain ⟨hnd, hvals⟩ := hwf
      have hv' : normalize v = normalize w :=
        ihv (hvals _ (List.mem_cons_self _ _))
      have htail : wellFormed (Json.obj kvs) = true := by
        rw [wellFormed_obj_iff]
        exact ⟨(List.nodup_cons.mp (by simpa using hnd)).2,
          fun p hm => hvals p (List.mem_cons_of_mem _ hm)⟩
      have hobj' : sortPairs (normalizePairs kvs) = sortPairs (normalizePairs kws) := by
        have h0 := ihobj htail
        simpa [normalize] using h0
      have hperm : (normalizePairs kvs).Perm (normalizePairs kws) := by
        have h1 := (sortPairs_perm (normalizePairs kvs)).symm
        rw [hobj'] at h1
        exact h1.trans (sortPairs_perm (normalizePairs kws))
      simp only [normalize, Json.obj.injEq]
      rw [normalizePairs, normalizePairs]
      refine sortPairs_eq_of_perm ?_ ?_
      · show ((k, normalize v) :: normalizePairs kvs).Perm
          ((k, normalize w) :: normalizePairs kws)
        rw [hv']
        exact hperm.cons _
      · simp only [List.map_cons, normalizePairs_fst]
        simpa using hnd
  | objPerm hp hrest ih =>
      rename_i kvs kvs' kws
      intro hwf
      have hwf' := wellFormed_obj_perm hp hwf
      have h2 := ih hwf'
      have h1 : normalize (Json.obj kvs) = normalize (Json.obj kvs') := by
        simp only [normalize, Json.obj.injEq]
        refine sortPairs_eq_of_perm ?_ ?_
        · rw [normalizePairs_eq_map, normalizePairs_eq_map]
          exact hp.map _
        · rw [normalizePairs_fst]
          exact (wellFormed_obj_iff.mp hwf).1
      exact h1.trans h2

/-! ### Sync Engine (`src/core/dev-sync-optimized.ts`, class `DevSyncEngine`)

`performSync` (lines 213-331) is one run-to-completion async procedure:
its lock check plus lock acquisition (lines 215-220) execute atomically
on the event loop, the body runs while the lock is held, and the `finally`
block (and the retry callback) release the lock.  A trigger — debounced
file event, polling tick, or retry timer — is one invocation of
`performSync`.  The outcomes of the awaited phases (change check, client
generation, build, link) are supplied by a `SyncEnv` oracle.
-/

/-- `MAX_SYNC_RETRIES` (`dev-sync-optimized.ts` line 48). -/
def MAX_SYNC_RETRIES : Nat := 3

/-- Retry delay in milliseconds: `Math.pow(2, syncRetries) * 1000`
(`dev-sync-optimized.ts` line 310), evaluated after the increment. -/
def retryDelayMs (retries : Nat) : Nat := 2 ^ retries * 1000

/-- The sync strategies of the configuration schema
(`strategy: smart|aggressive|conservative`). -/
inductive SyncStrategy where
  | smart : SyncStrategy
  | aggressive : SyncStrategy
  | conservative : SyncStrategy
deriving DecidableEq

/-- The error classes that can escape a phase of the sync procedure:
`ApiSpecError` (spec retrieval), `GeneratorError` (unconfigured
generator), and wrapped command failures from `runCommand`
(generation, build, or link subprocess exiting non-zero). -/
inductive SyncError where
  | apiSpecFailed (msg : String) : SyncError
  | generatorFailed (msg : String) : SyncError
  | commandFailed (msg : String) : SyncError
deriving DecidableEq

/-- The four-variant `SyncEvent` type tag (`dev-sync-optimized.ts`
lines 24-34); the failure variant carries the caught error. -/
inductive SyncEventType where
  | specChanged : SyncEventType
  | generationStarted : SyncEventType
  | generationCompleted : SyncEventType
  | generationFailed (e : SyncError) : SyncEventType
deriving DecidableEq

/-- Mutable fields of `DevSyncEngine` touched by `performSync`:
the non-reentrant lock (`syncLock`, line 46) and the retry counter
(`syncRetries`, line 47). -/
structure EngineState where
  syncLock : Bool
  syncRetries : Nat
deriving DecidableEq

/-- Oracle for one invocation of the sync procedure: the strategy from
the configuration and the outcome of each awaited phase. -/
structure SyncEnv where
  strategy : SyncStrategy
  checkResult : Except SyncError Bool
  generateResult : Except SyncError Unit
  buildCommand : Bool
  buildResult : Except SyncError Unit
  autoLink : Bool
  linkResult : Except SyncError Unit

/-- Result of the `try` block of `performSync`: early smart-strategy
skip (line 242-245), full pipeline success, or a caught error. -/
inductive SyncBodyResult where
  | skipped : SyncBodyResult
  | completed : SyncBodyResult
  | failed (e : SyncError) : SyncBodyResult
deriving DecidableEq

/-- The `try` block of `performSync` (lines 224-296): change check,
smart-strategy early return, client generation, optional build, optional
link.  The second component records whether `generateClient` was invoked. -/
def syncBody (env : SyncEnv) : SyncBodyResult × Bool :=
  match env.checkResult with
  | .error e => (.failed e, false)
  | .ok hasChanges =>
    if !hasChanges && env.strategy = .smart then (.skipped, false)
    else
      match env.generateResult with
      | .error e => (.failed e, true)
      | .ok _ =>
        let afterBuild : Except SyncError Unit :=
          if env.buildCommand then env.buildResult else .ok ()
        match afterBuild with
        | .error e => (.failed e, true)
        | .ok _ =>
          let afterLink : Except SyncError Unit :=
            if env.autoLink then env.linkResult else .ok ()
          match afterLink with
          | .error e => (.failed e, true)
          | .ok _ => (.completed, true)

/-- Observable outcome of one `performSync` invocation: the engine state
after the call (the `finally` block has released the lock), the
`sync-event`s emitted, the retry delay scheduled by the catch block (if
any), and whether the procedure body was entered (the lock check at
lines 215-218 passed). -/
structure SyncRunResult where
  state : EngineState
  events : List SyncEventType
  retryScheduled : Option Nat
  bodyEntered : Bool
deriving DecidableEq

/-- `performSync` (lines 213-331).  A call finding `syncLock` set returns
at once: no event, no phase, no state change (lines 215-218).  Otherwise
the lock is taken, `generation-started` is emitted, the body runs, and
the catch block converts a failure into a `generation-failed` event plus
either a scheduled backoff retry (counter below `MAX_SYNC_RETRIES`) or a
counter reset; the lock is released on every path. -/
def performSync (s : EngineState) (env : SyncEnv) : SyncRunResult :=
  if s.syncLock then
    { state := s, events := [], retryScheduled := none, bodyEntered := false }
  else
    let s1 : EngineState := { s with syncLock := true }
    match syncBody env with
    | (.skipped, _) =>
      { state := { s1 with syncLock := false }
        events := [.generationStarted]
        retryScheduled := none
        bodyEntered := true }
    | (.completed, _) =>
      { state := { syncLock := false, syncRetries := 0 }
        events := [.generationStarted, .generationCompleted]
        retryScheduled := none
        bodyEntered := true }
    | (.failed e, _) =>
      if s1.syncRetries < MAX_SYNC_RETRIES then
        let r := s1.syncRetries + 1
        { state := { syncLock := false, syncRetries := r }
          events := [.generationStarted, .generationFailed e]
          retryScheduled := some (retryDelayMs r)
          bodyEntered := true }
      else
        { state := { syncLock := false, syncRetries := 0 }
          events := [.generationStarted, .generationFailed e]
          retryScheduled := none
          bodyEntered := true }

/-- The engine state during an in-flight sync: the body has set
`syncLock` (line 220) and has not yet reached the `finally` block. -/
def syncInFlight (s : EngineState) : EngineState := { s with syncLock := true }

/-- The retry callback scheduled by the catch block (lines 316-319):
`this.syncLock = false; this.performSync();` — when the timer fires it
unconditionally clears the lock, whether or not the callback owns it,
and then re-invokes the sync procedure on the resulting state. -/
def retryFire (s : EngineState) (env : SyncEnv) : SyncRunResult :=
  performSync { s with syncLock := false } env

/-- Process a burst of triggers sequentially (each is one `performSync`
invocation on the event loop), counting how many entered the body. -/
def runTriggers (s : EngineState) : List SyncEnv → EngineState × Nat
  | [] => (s, 0)
  | env :: envs =>
    let r := performSync s env
    let rest := runTriggers r.state envs
    (rest.1, (if r.bodyEntered then 1 else 0) + rest.2)

/-- An environment whose generation phase always fails, for the
always-failing engine of the retry-bound property. -/
def alwaysFailEnv : SyncEnv :=
  { strategy := .smart
    checkResult := .ok true
    generateResult := .error (.commandFailed "generate")
    buildCommand := false
    buildResult := .ok ()
    autoLink := false
    linkResult := .ok () }

/-- Fresh engine state: lock free, retry counter zero (lines 46-47). -/
def initialEngine : EngineState := { syncLock := false, syncRetries := 0 }

/-- Run `n` consecutive invocations of the always-failing sync (the
initial trigger plus the chain of scheduled retries, each of which
releases the lock before re-invoking `performSync`), collecting each
invocation's scheduled retry delay. -/
def iterateFailures : Nat → EngineState → EngineState × List (Option Nat)
  | 0, s => (s, [])
  | n + 1, s =>
    let r := performSync s alwaysFailEnv
    let rest := iterateFailures n r.state
    (rest.1, r.retryScheduled :: rest.2)

/-- Environment of the smart-strategy skip scenario: strategy `smart`,
change detector reports no significant change. -/
def smartSkipEnv : SyncEnv :=
  { strategy := .smart
    checkResult := .ok false
    generateResult := .ok ()
    buildCommand := false
    buildResult := .ok ()
    autoLink := false
    linkResult := .ok () }

/-! ### Service state machine (`src/core/services/base-service.ts`) -/

/-- `ServiceState` (`base-service.ts` lines 19-25). -/
inductive ServiceState where
  | stopped : ServiceState
  | starting : ServiceState
  | running : ServiceState
  | stopping : ServiceState
  | error : ServiceState
deriving DecidableEq

/-- `BaseService.start` (lines 73-119): a warning no-op unless the state
is `stopped`; otherwise `starting`, then `running` on success or `error`
on any startup failure (port check, spawn, or readiness wait — the
combined outcome is the `startupOk` oracle).  The second component is
the sequence of `setState` calls performed. -/
def serviceStart (startupOk : Bool) (s : ServiceState) :
    ServiceState × List ServiceState :=
  if s = .stopped then
    if startupOk then (.running, [.starting, .running])
    else (.error, [.starting, .error])
  else (s, [])

/-- `BaseService.stop` (lines 124-144): a no-op when already `stopped`;
otherwise `stopping`, kill the child, `stopped`. -/
def serviceStop (s : ServiceState) : ServiceState × List ServiceState :=
  if s = .stopped then (s, [])
  else (.stopped, [.stopping, .stopped])

/-- The process `exit` handler installed by `setupProcessHandlers`
(lines 195-205): during `stopping` the exit is expected and ignored;
during `running` it is unexpected and drives the service to `error`;
in any other state it changes nothing. -/
def onProcessExit (s : ServiceState) : ServiceState :=
  if s = .stopping then s
  else if s = .running then .error
  else s

/-! ### Port manager (`src/utils/port-manager.ts`, class `PortManager`)

`freePort` (lines 136-267) consults the OS through `isPortInUse` and
`getProcessesUsingPort`; both are modelled as oracles indexed by call
number, since each iteration deliberately re-queries the OS (new
processes may have taken over the port). -/

/-- Kill method chosen per attempt (lines 187-204): attempt 1 a graceful
`PlatformUtils.killProcess`, attempt 2 `SIGKILL`, attempts 3+ the
OS-level `forceKillProcess` including the child-process tree. -/
inductive KillKind where
  | graceful : KillKind
  | sigkill : KillKind
  | force : KillKind
deriving DecidableEq

/-- `killKindFor attempt` for the 1-based attempt counter. -/
def killKindFor (attempt : Nat) : KillKind :=
  if attempt = 1 then .graceful else if attempt = 2 then .sigkill else .force

/-- OS oracle for one `freePort` call: successive results of
`isPortInUse`, successive results of `getProcessesUsingPort`, and
whether the process runs with elevated privileges. -/
structure PortEnv where
  inUse : Nat → Bool
  owners : Nat → List Nat
  elevated : Bool

/-- Observable side effects of a `freePort` call: kill attempts (method
and target pids, one entry per loop iteration), backoff waits in
milliseconds, and how many times the port status and the owning-process
list were queried. -/
structure PortTrace where
  kills : List (KillKind × List Nat)
  waits : List Nat
  portChecks : Nat
  ownerQueries : Nat
deriving DecidableEq

/-- Outcome of `freePort`: normal return (with the number of kill
attempts it took), the error for an unidentifiable owner, or the
give-up error after the attempt ceiling — which suggests elevated
privileges exactly when the process is not elevated (lines 246-256). -/
inductive PortOutcome where
  | freed (attempts : Nat) : PortOutcome
  | noOwners : PortOutcome
  | exhausted (suggestElevated : Bool) : PortOutcome
deriving DecidableEq

/-- `maxAttempts` (line 151). -/
def maxAttempts : Nat := 5

/-- `initialDelay` in ms (line 152). -/
def initialDelay : Nat := 500

/-- `maxDelay` in ms (line 153). -/
def maxDelay : Nat := 5000

/-- `backoffMultiplier` (line 154). -/
def backoffMultiplier : Nat := 2

/-- The `while (attempt < maxAttempts && !portFreed)` loop of `freePort`
(lines 176-240): kill the current owners with the method for this
attempt, wait the current delay, re-check the port, return on success,
otherwise re-resolve the owners (adopting them only when non-empty and
different), double the delay up to `maxDelay`, and continue.  `fuel` is
`maxAttempts - attempt`; exhausting it is the give-up error (lines
243-260). -/
def freePortLoop (env : PortEnv) :
    Nat → Nat → Nat → List Nat → Nat → Nat → PortTrace → PortTrace × PortOutcome
  | 0, _, _, _, _, _, tr => (tr, .exhausted (!env.elevated))
  | fuel + 1, attempt, delay, pids, checkIdx, ownerIdx, tr =>
    let a := attempt + 1
    let tr1 : PortTrace :=
      { tr with kills := tr.kills ++ [(killKindFor a, pids)]
                waits := tr.waits ++ [delay] }
    let stillInUse := env.inUse checkIdx
    let tr2 : PortTrace := { tr1 with portChecks := tr1.portChecks + 1 }
    if stillInUse then
      let newPids := env.owners ownerIdx
      let tr3 : PortTrace := { tr2 with ownerQueries := tr2.ownerQueries + 1 }
      let pids' := if newPids ≠ [] ∧ newPids ≠ pids then newPids else pids
      freePortLoop env fuel a (min (delay * backoffMultiplier) maxDelay) pids'
        (checkIdx + 1) (ownerIdx + 1) tr3
    else (tr2, .freed a)

/-- `PortManager.freePort` (lines 136-267): return immediately when the
initial `isPortInUse` check is negative; fail when the port is in use
but no owning process can be identified; otherwise run the backoff loop
starting at attempt 0 with the initial 500 ms delay. -/
def freePort (env : PortEnv) : PortTrace × PortOutcome :=
  let tr0 : PortTrace := { kills := [], waits := [], portChecks := 1, ownerQueries := 0 }
  if env.inUse 0 then
    let pids := env.owners 0
    let tr1 : PortTrace := { tr0 with ownerQueries := 1 }
    if pids = [] then (tr1, .noOwners)
    else freePortLoop env maxAttempts 0 initialDelay pids 1 1 tr1
  else (tr0, .freed 0)

/-- An environment whose port never frees and is owned by one stubborn
process, for the backoff-exhaustion scenario. -/
def busyEnv : PortEnv :=
  { inUse := fun _ => true, owners := fun _ => [42], elevated := false }

/-! ### Orchestrator shutdown (`src/core/orchestrator.ts`,
`DevSyncOrchestrator.stop`, lines 239-281)

`stop` is one async procedure whose entry check of `isShuttingDown` and
flag assignment (lines 240-241) run atomically on the event loop; the
stop sequence runs while the flag is set and the flag is reset at the
end (line 280).  A shutdown call arriving while the sequence is in
progress observes the set flag. -/

/-- Orchestrator shutdown bookkeeping: the re-entrancy flag and a count
of stop sequences begun. -/
structure OrchState where
  isShuttingDown : Bool
  sequencesRun : Nat
deriving DecidableEq

/-- Entry of `DevSyncOrchestrator.stop` (lines 240-241): return at once
when a shutdown is already in progress, else raise the flag and begin
the stop sequence.  The Boolean reports whether the sequence was begun. -/
def stopBegin (s : OrchState) : OrchState × Bool :=
  if s.isShuttingDown then (s, false)
  else ({ isShuttingDown := true, sequencesRun := s.sequencesRun + 1 }, true)

/-- End of `DevSyncOrchestrator.stop` (line 280): the flag is reset so a
later restart can stop again. -/
def stopFinish (s : OrchState) : OrchState := { s with isShuttingDown := false }

/-- A burst of `n` shutdown calls processed sequentially on the event
loop, counting how many began the stop sequence. -/
def overlappingStops (s : OrchState) : Nat → OrchState × Nat
  | 0 => (s, 0)
  | n + 1 =>
    let r := stopBegin s
    let rest := overlappingStops r.1 n
    (rest.1, (if r.2 then 1 else 0) + rest.2)

/-- The ordered steps of one stop sequence (lines 247-273): stop the
sync engine, stop each service, kill remaining processes, unlink
packages, close the config watcher. -/
inductive StopAction where
  | stopSyncEngine : StopAction
  | stopService (idx : Nat) : StopAction
  | killAllProcesses : StopAction
  | unlinkPackages : StopAction
  | closeConfigWatcher : StopAction
deriving DecidableEq

/-- The stop sequence for `serviceCount` services, in source order. -/
def stopSequence (serviceCount : Nat) : List StopAction :=
  [.stopSyncEngine] ++ ((List.range serviceCount).map .stopService)
    ++ [.killAllProcesses, .unlinkPackages, .closeConfigWatcher]

/-- The service-stopping phase (lines 254-261): every service's `stop`
is invoked and each failure is caught and logged (`.catch` per promise),
never aborting the others.  Given each service's stop outcome, returns
how many stops were attempted and the errors that were logged. -/
def stopAllServices : List (Except String Unit) → Nat × List String
  | [] => (0, [])
  | r :: rs =>
    let rest := stopAllServices rs
    match r with
    | .ok _ => (rest.1 + 1, rest.2)
    | .error e => (rest.1 + 1, e :: rest.2)

/-! ### Change check of the Sync Engine
(`DevSyncEngine.checkForMeaningfulChanges`, `dev-sync-optimized.ts`
lines 336-401) -/

/-- Spec-source classification (lines 338-340 and passim): a runtime
spec path starts with `runtime:` or with `/`.  The `startsWith` calls of
the source are expressed as prefix comparisons on the character list of
the path. -/
def isRuntimeSpec (path : String) : Bool :=
  (path.data.take 8 = "runtime:".data) || (path.data.take 1 = "/".data)

/-- Outcome of the comparison `fetch` of a runtime spec (lines 351-353):
a parsed body, a non-OK HTTP response, or a thrown network error /
timeout. -/
inductive FetchResult where
  | ok (spec : Json) : FetchResult
  | httpError (statusText : String) : FetchResult
  | netError (msg : String) : FetchResult

/-- The `ApiSpecError`s thrown by the static-file path (lines 391-400). -/
inductive ApiSpecFailure where
  | notFound (path : String) : ApiSpecFailure
  | parseFailed (path : String) : ApiSpecFailure
deriving DecidableEq

/-- `checkForMeaningfulChanges` (lines 336-401).  For runtime specs a
failed comparison fetch — non-OK status (lines 355-363) or a thrown
error (lines 376-382) — yields `true` (assume changed) instead of an
error, and on a successful fetch the detector result is returned with
`lastGeneratedSpecHash` updated when changes were found (lines 369-373).
For static specs a missing file or an unparseable body throws an
`ApiSpecError`.  Returns the change verdict, the updated detector, and
the updated `lastGeneratedSpecHash`. -/
def checkForMeaningfulChanges (apiSpecPath : String)
    (det : SwaggerChangeDetector) (lastHash : Option String)
    (fetch : FetchResult) (fileExists : Bool) (parsed : Option Json) :
    Except ApiSpecFailure (Bool × SwaggerChangeDetector × Option String) :=
  if isRuntimeSpec apiSpecPath then
    match fetch with
    | .httpError _ => .ok (true, det, lastHash)
    | .netError _ => .ok (true, det, lastHash)
    | .ok spec =>
      let r := hasSignificantChanges det spec
      let lh := if r.1 then getCurrentHash r.2 else lastHash
      .ok (r.1, r.2, lh)
  else
    if fileExists then
      match parsed with
      | none => .error (.parseFailed apiSpecPath)
      | some spec =>
        let r := hasSignificantChanges det spec
        .ok (r.1, r.2, lastHash)
    else .error (.notFound apiSpecPath)

/-- Whether an `Except` value is a normal (non-thrown) result. -/
def isOkResult {ε α : Type} : Except ε α → Bool
  | .ok _ => true
  | .error _ => false

/-! ### Auxiliary lemmas -/

/-- Every document is structurally identical to itself up to key order. -/
theorem sameModKeyOrder_refl : (j : Json) → SameModKeyOrder j j
  | .null => .null
  | .bool b => .bool b
  | .num n => .num n
  | .str s => .str s
  | .arr [] => .arrNil
  | .arr (x :: xs) =>
      .arrCons (sameModKeyOrder_refl x) (sameModKeyOrder_refl (.arr xs))
  | .obj [] => .objNil
  | .obj ((k, v) :: kvs) =>
      .objCons (sameModKeyOrder_refl v) (sameModKeyOrder_refl (.obj kvs))

/-- Swapping the two members of a two-member object, with values related
recursively, is a key-order-only difference. -/
theorem sameModKeyOrder_obj_swap {k1 k2 : String} {v1 v2 w1 w2 : Json}
    (h1 : SameModKeyOrder v1 w1) (h2 : SameModKeyOrder v2 w2) :
    SameModKeyOrder (.obj [(k1, v1), (k2, v2)]) (.obj [(k2, w2), (k1, w1)]) :=
  .objPerm (List.Perm.swap _ _ _) (.objCons h2 (.objCons h1 .objNil))

/-- A sample OpenAPI document. -/
def specA : Json :=
  .obj [("paths", .obj [("/users", .obj [("get", .str "op1")]),
                        ("/items", .obj [("post", .str "op2")])]),
        ("info", .obj [("title", .str "api"), ("version", .str "1")])]

/-- The same document with object members reordered at two levels. -/
def specB : Json :=
  .obj [("info", .obj [("version", .str "1"), ("title", .str "api")]),
        ("paths", .obj [("/items", .obj [("post", .str "op2")]),
                        ("/users", .obj [("get", .str "op1")])])]

/-- `specA` and `specB` differ only in object key order. -/
theorem specA_equiv_specB : SameModKeyOrder specA specB :=
  sameModKeyOrder_obj_swap
    (sameModKeyOrder_obj_swap (sameModKeyOrder_refl _) (sameModKeyOrder_refl _))
    (sameModKeyOrder_obj_swap (sameModKeyOrder_refl _) (sameModKeyOrder_refl _))

/-- A dropped trigger: `performSync` on a locked engine returns at once
with no event, no retry, no body entry, and an unchanged state. -/
theorem performSync_locked (t : EngineState) (env : SyncEnv)
    (ht : t.syncLock = true) :
    performSync t env
      = { state := t, events := [], retryScheduled := none, bodyEntered := false } := by
  simp [performSync, ht]

/-- While a shutdown is in progress, further shutdown calls begin nothing. -/
theorem overlappingStops_inProgress (u : OrchState) (hu : u.isShuttingDown = true) :
    ∀ n, overlappingStops u n = (u, 0) := by
  intro n
  induction n with
  | zero => rfl
  | succ n ih =>
      simp only [overlappingStops, stopBegin, hu, if_true]
      simpa using ih

/-- Every service's stop is attempted, regardless of failures. -/
theorem stopAllServices_attempts (results : List (Except String Unit)) :
    (stopAllServices results).1 = results.length := by
  induction results with
  | nil => rfl
  | cons r rs ih =>
      cases r <;> simp [stopAllServices, ih]

/-- The backoff loop performs at most `fuel` further kill attempts. -/
theorem freePortLoop_kills_le (env : PortEnv) (fuel : Nat) :
    ∀ attempt delay pids checkIdx ownerIdx tr,
      ((freePortLoop env fuel attempt delay pids checkIdx ownerIdx tr).1.kills.length)
        ≤ tr.kills.length + fuel := by
  induction fuel with
  | zero => intro _ _ _ _ _ tr; simp [freePortLoop]
  | succ n ih =>
      intro attempt delay pids checkIdx ownerIdx tr
      simp only [freePortLoop]
      split
      · refine le_trans (ih _ _ _ _ _ _) ?_
        simp only [List.length_append, List.length_cons, List.length_nil]
        omega
      · simp only [List.length_append, List.length_cons, List.length_nil]
        omega

/-- The retry counter can only move within the `MAX_SYNC_RETRIES` cap. -/
theorem performSync_retries_le (s : EngineState) (env : SyncEnv)
    (h : s.syncRetries ≤ MAX_SYNC_RETRIES) :
    (performSync s env).state.syncRetries ≤ MAX_SYNC_RETRIES := by
  by_cases hl : s.syncLock = true
  · simpa [performSync, hl] using h
  · rcases hb : syncBody env with ⟨b, inv⟩
    cases b with
    | skipped => simpa [performSync, hl, hb] using h
    | completed => simp [performSync, hl, hb, MAX_SYNC_RETRIES]
    | failed e =>
        simp only [performSync, hl, Bool.false_eq_true, if_false, hb,
          MAX_SYNC_RETRIES] at h ⊢
        by_cases hc : s.syncRetries < 3
        · rw [if_pos hc]
          show s.syncRetries + 1 ≤ 3
          omega
        · rw [if_neg hc]
          show (0 : Nat) ≤ 3
          omega

/-- The backoff delay schedule is strictly increasing: each retry doubles
the previous delay. -/
theorem retryDelayMs_strict (k : Nat) : retryDelayMs k < retryDelayMs (k + 1) := by
  have hpos : 0 < retryDelayMs k := by
    simp only [retryDelayMs]
    positivity
  have hdouble : retryDelayMs (k + 1) = 2 * retryDelayMs k := by
    unfold retryDelayMs
    rw [pow_succ]
    ring
  omega

/-- An environment whose port is free from the start. -/
def freeEnv : PortEnv :=
  { inUse := fun _ => false, owners := fun _ => [], elevated := true }

/-! ### Claim theorems -/

/-- C1: the claimed at-most-one-concurrent-sync discipline holds for
file-change and polling triggers — a burst of them arriving during an
in-flight sync is dropped with zero body entries and no state change —
but the claim also covers retry triggers, and there the code breaks it.
Concretely: a sync on a fresh engine fails and schedules a retry in
2000 ms leaving `syncRetries = 1`; during the backoff a new trigger
starts a sync that is in flight (holding `syncLock`) when the timer
fires; the retry callback unconditionally clears `syncLock` and
re-invokes `performSync`, which passes the lock check and enters the
body — a second execution of the sync procedure starts while the first
is still in progress, instead of being dropped as the claim states. -/
theorem retry_callback_breaks_sync_lock :
    (performSync initialEngine alwaysFailEnv).retryScheduled = some 2000 ∧
    (performSync initialEngine alwaysFailEnv).state
      = { syncLock := false, syncRetries := 1 } ∧
    runTriggers (syncInFlight { syncLock := false, syncRetries := 1 })
        [smartSkipEnv, alwaysFailEnv]
      = (syncInFlight { syncLock := false, syncRetries := 1 }, 0) ∧
    (retryFire (syncInFlight { syncLock := false, syncRetries := 1 })
        alwaysFailEnv).bodyEntered = true := by
  decide

/-- C2: on an always-failing sync, each failure schedules a retry with
exponentially doubling delay from the 1000 ms base (2000, 4000, 8000 ms
strictly increasing), exactly `MAX_SYNC_RETRIES` = 3 retries are
scheduled after the initial failure, the retry counter never exceeds the
cap, and once the cap is exceeded the counter resets to 0. -/
theorem sync_retry_cap :
    (∀ s env, s.syncRetries ≤ MAX_SYNC_RETRIES →
        (performSync s env).state.syncRetries ≤ MAX_SYNC_RETRIES) ∧
    iterateFailures 4 initialEngine
      = ({ syncLock := false, syncRetries := 0 },
         [some 2000, some 4000, some 8000, none]) ∧
    (iterateFailures 4 initialEngine).2.filterMap id
      = [retryDelayMs 1, retryDelayMs 2, retryDelayMs 3] ∧
    (∀ k, retryDelayMs k < retryDelayMs (k + 1)) ∧
    retryDelayMs 1 = 2 * 1000 ∧ retryDelayMs 2 = 2 * retryDelayMs 1 ∧
    retryDelayMs 3 = 2 * retryDelayMs 2 := by
  exact ⟨performSync_retries_le, by decide, by decide, retryDelayMs_strict,
    by decide, by decide, by decide⟩

/-- C2 witness: the cap invariant applied at the cap itself. -/
theorem sync_retry_cap_witness :
    EngineState.syncRetries ⟨false, 3⟩ ≤ MAX_SYNC_RETRIES ∧
    (performSync ⟨false, 3⟩ alwaysFailEnv).state.syncRetries ≤ MAX_SYNC_RETRIES :=
  ⟨by decide, sync_retry_cap.1 ⟨false, 3⟩ alwaysFailEnv (by decide)⟩

/-- C3 counterexample: under the smart strategy with no significant
change, the sync procedure body runs and emits only `generation-started`
— the claimed `generation-completed` event does not fire, because the
early return at `dev-sync-optimized.ts` lines 242-245 leaves the `try`
block before the completion event is emitted. -/
theorem smart_skip_emits_no_completed_event :
    (performSync initialEngine smartSkipEnv).events = [.generationStarted] ∧
    SyncEventType.generationCompleted ∉ (performSync initialEngine smartSkipEnv).events ∧
    (performSync initialEngine smartSkipEnv).bodyEntered = true := by
  decide

/-- C3 (amended): under strategy smart with no significant change
reported, the sync aborts early as a success — `generateClient` is never
invoked, no `generation-failed` event is emitted, no retry is scheduled,
and the engine returns to an unlocked state — but no
`generation-completed` event is emitted either: the only event is
`generation-started`. -/
theorem smart_skip_aborts_as_success (s : EngineState) (env : SyncEnv)
    (h : s.syncLock = false) (hstrat : env.strategy = .smart)
    (hcheck : env.checkResult = .ok false) :
    (performSync s env).events = [.generationStarted] ∧
    (syncBody env).2 = false ∧
    (∀ e, SyncEventType.generationFailed e ∉ (performSync s env).events) ∧
    SyncEventType.generationCompleted ∉ (performSync s env).events ∧
    (performSync s env).retryScheduled = none ∧
    (performSync s env).state = { s with syncLock := false } := by
  have hb : syncBody env = (.skipped, false) := by
    simp [syncBody, hcheck, hstrat]
  simp [performSync, h, hb]

/-- C3 witness: the amended behaviour at a concrete skip scenario. -/
theorem smart_skip_aborts_as_success_witness :
    initialEngine.syncLock = false ∧ smartSkipEnv.strategy = .smart ∧
    smartSkipEnv.checkResult = .ok false ∧
    (performSync initialEngine smartSkipEnv).events = [.generationStarted] :=
  ⟨rfl, rfl, rfl, (smart_skip_aborts_as_success initialEngine smartSkipEnv rfl rfl rfl).1⟩

/-- C4: `start()` on a service that is not `stopped` is a no-op leaving
the state unchanged with no transitions; `stop()` on a `stopped` service
is a no-op; a process exit while `running` transitions the service to
`error`; the same exit while `stopping` leaves the state `stopping` and
in particular does not enter `error`. -/
theorem service_state_machine :
    (∀ s ok, s ≠ ServiceState.stopped → serviceStart ok s = (s, [])) ∧
    serviceStop .stopped = (.stopped, []) ∧
    onProcessExit .running = .error ∧
    onProcessExit .stopping = .stopping ∧
    onProcessExit .stopping ≠ .error := by
  refine ⟨?_, by decide, by decide, by decide, by decide⟩
  intro s ok h
  simp [serviceStart, h]

/-- C4 witness: `start()` on a running service is a no-op. -/
theorem service_state_machine_witness :
    ServiceState.running ≠ ServiceState.stopped ∧
    serviceStart true .running = (.running, []) :=
  ⟨by decide, service_state_machine.1 .running true (by decide)⟩

/-- C5: on a port that never frees, `freePort` performs exactly 5 kill
attempts (graceful, then SIGKILL, then OS-level force-kill for attempts
3-5), waits 500, 1000, 2000, 4000, 5000 ms (doubling, capped at 5000),
re-checks the port and re-resolves the owners once per iteration (six
queries each including the initial one), and then gives up with an error
that suggests elevated privileges when the process is not elevated; and
for every environment the number of kill attempts is at most 5. -/
theorem freePort_backoff_exhaustion :
    (freePort busyEnv).2 = .exhausted true ∧
    (freePort busyEnv).1.kills.map Prod.fst
      = [.graceful, .sigkill, .force, .force, .force] ∧
    (freePort busyEnv).1.kills.length = maxAttempts ∧
    (freePort busyEnv).1.waits = [500, 1000, 2000, 4000, 5000] ∧
    (freePort busyEnv).1.portChecks = 6 ∧
    (freePort busyEnv).1.ownerQueries = 6 ∧
    (∀ env : PortEnv, (freePort env).1.kills.length ≤ maxAttempts) := by
  refine ⟨by rfl, by rfl, by rfl, by rfl, by rfl, by rfl, ?_⟩
  intro env
  simp only [freePort]
  split
  · split
    · simp [maxAttempts]
    · refine le_trans (freePortLoop_kills_le env maxAttempts _ _ _ _ _ _) ?_
      simp
  · simp [maxAttempts]

/-- C9: `freePort` on a port that is not in use returns immediately after
the single initial check: zero kill attempts, zero backoff waits, no
owner resolution, and a normal (non-error) outcome. -/
theorem freePort_free_is_noop (env : PortEnv) (h : env.inUse 0 = false) :
    freePort env
      = ({ kills := [], waits := [], portChecks := 1, ownerQueries := 0 },
         .freed 0) := by
  simp [freePort, h]

/-- C9 witness: the no-op on a concrete free port. -/
theorem freePort_free_is_noop_witness :
    freeEnv.inUse 0 = false ∧
    freePort freeEnv
      = ({ kills := [], waits := [], portChecks := 1, ownerQueries := 0 },
         .freed 0) :=
  ⟨rfl, freePort_free_is_noop freeEnv rfl⟩

/-- C6: every failure inside the sync procedure is caught at the
procedure boundary: whatever phase of the body fails, `performSync`
emits `generation-failed` carrying that error, releases the lock, and
returns a plain result — the error is converted into the event rather
than propagated, so (the model of) `performSync` is a total function and
no sync-time failure can throw out of `start()`. -/
theorem sync_errors_confined (s : EngineState) (env : SyncEnv)
    (e : SyncError) (inv : Bool) (h : s.syncLock = false)
    (hb : syncBody env = (.failed e, inv)) :
    (performSync s env).events
      = [.generationStarted, .generationFailed e] ∧
    SyncEventType.generationFailed e ∈ (performSync s env).events ∧
    (performSync s env).state.syncLock = false := by
  simp only [performSync, h, Bool.false_eq_true, if_false, hb]
  split <;> simp

/-- C6 witness: a generation-phase failure at a concrete input. -/
theorem sync_errors_confined_witness :
    initialEngine.syncLock = false ∧
    syncBody alwaysFailEnv = (.failed (.commandFailed "generate"), true) ∧
    (performSync initialEngine alwaysFailEnv).events
      = [.generationStarted, .generationFailed (.commandFailed "generate")] :=
  ⟨rfl, rfl, (sync_errors_confined initialEngine alwaysFailEnv
    (.commandFailed "generate") true rfl rfl).1⟩

/-- C7: two well-formed documents that are structurally identical up to
object key order receive the same signature, so after a first call on
one establishes the baseline, `hasSignificantChanges` on the other
returns false; and the signature is deterministic — any two documents
with the same normalized form have the same signature. -/
theorem detector_key_order_invariance (d d' : Json)
    (hwf : wellFormed d = true) (he : SameModKeyOrder d d') :
    (hasSignificantChanges (hasSignificantChanges ⟨none⟩ d).2 d').1 = false ∧
    signature d = signature d' ∧
    (∀ a b : Json, normalize a = normalize b → signature a = signature b) := by
  have hn : normalize d = normalize d' := normalize_eq_of_sameModKeyOrder he hwf
  have hsig : signature d = signature d' := by simp [signature, hn]
  refine ⟨?_, hsig, fun a b hab => by simp [signature, hab]⟩
  simp [hasSignificantChanges, hsig]

/-- C7 witness: a two-level reordering of a concrete OpenAPI document is
reported as no significant change once the baseline is set. -/
theorem detector_key_order_invariance_witness :
    wellFormed specA = true ∧
    (hasSignificantChanges (hasSignificantChanges ⟨none⟩ specA).2 specB).1 = false :=
  ⟨by decide, (detector_key_order_invariance specA specB (by decide) specA_equiv_specB).1⟩

/-- C8: orchestrator shutdown is idempotent — a shutdown call finding the
stop sequence in progress returns immediately without beginning it, a
burst of overlapping calls after the first begins zero further
sequences (so at most one stop sequence runs), and the service-stopping
phase attempts every service's `stop` regardless of individual
failures. -/
theorem orchestrator_shutdown_idempotent (s0 t : OrchState) (n : Nat)
    (results : List (Except String Unit))
    (h0 : s0.isShuttingDown = false) (ht : t.isShuttingDown = true) :
    stopBegin t = (t, false) ∧
    (stopBegin s0).2 = true ∧
    (stopBegin s0).1.sequencesRun = s0.sequencesRun + 1 ∧
    overlappingStops (stopBegin s0).1 n = ((stopBegin s0).1, 0) ∧
    (stopAllServices results).1 = results.length := by
  refine ⟨by simp [stopBegin, ht], by simp [stopBegin, h0], by simp [stopBegin, h0],
    ?_, stopAllServices_attempts results⟩
  exact overlappingStops_inProgress _ (by simp [stopBegin, h0]) n

/-- C8 witness: three overlapping shutdown calls after the first begin
nothing, and a failing middle service does not reduce the number of
attempted stops. -/
theorem orchestrator_shutdown_idempotent_witness :
    OrchState.isShuttingDown ⟨false, 0⟩ = false ∧
    OrchState.isShuttingDown ⟨true, 1⟩ = true ∧
    overlappingStops (stopBegin ⟨false, 0⟩).1 3 = ((stopBegin ⟨false, 0⟩).1, 0) ∧
    (stopAllServices [.ok (), .error "backend stop failed", .ok ()]).1 = 3 :=
  ⟨rfl, rfl,
    (orchestrator_shutdown_idempotent ⟨false, 0⟩ ⟨true, 1⟩ 3
      [.ok (), .error "backend stop failed", .ok ()] rfl rfl).2.2.2.1,
    (orchestrator_shutdown_idempotent ⟨false, 0⟩ ⟨true, 1⟩ 3
      [.ok (), .error "backend stop failed", .ok ()] rfl rfl).2.2.2.2⟩

/-- C10: for runtime specs, a failed comparison fetch — non-OK HTTP
status or a thrown network error / timeout — makes
`checkForMeaningfulChanges` return `true` (assume changed) instead of
raising, and indeed the runtime path never raises; only the static-file
path raises a spec error, on a missing file or an unparseable body. -/
theorem runtime_fetch_failure_assumed_changed (p : String)
    (det : SwaggerChangeDetector) (lastHash : Option String)
    (fileExists : Bool) (parsed : Option Json)
    (hrt : isRuntimeSpec p = true) :
    (∀ st, checkForMeaningfulChanges p det lastHash (.httpError st) fileExists parsed
        = .ok (true, det, lastHash)) ∧
    (∀ m, checkForMeaningfulChanges p det lastHash (.netError m) fileExists parsed
        = .ok (true, det, lastHash)) ∧
    (∀ fetch, isOkResult (checkForMeaningfulChanges p det lastHash fetch fileExists parsed)
        = true) ∧
    (∀ q (det2 : SwaggerChangeDetector) lh2 fetch2 pa2, isRuntimeSpec q = false →
        checkForMeaningfulChanges q det2 lh2 fetch2 false pa2
          = .error (.notFound q)) ∧
    (∀ q (det2 : SwaggerChangeDetector) lh2 fetch2, isRuntimeSpec q = false →
        checkForMeaningfulChanges q det2 lh2 fetch2 true none
          = .error (.parseFailed q)) := by
  refine ⟨?_, ?_, ?_, ?_, ?_⟩
  · intro st; simp [checkForMeaningfulChanges, hrt]
  · intro m; simp [checkForMeaningfulChanges, hrt]
  · intro fetch
    cases fetch <;> simp [checkForMeaningfulChanges, hrt, isOkResult]
  · intro q det2 lh2 fetch2 pa2 hq
    simp [checkForMeaningfulChanges, hq]
  · intro q det2 lh2 fetch2 hq
    simp [checkForMeaningfulChanges, hq]

/-- C10 witness: a timed-out comparison fetch of `/openapi.json` is
treated as changed. -/
theorem runtime_fetch_failure_assumed_changed_witness :
    isRuntimeSpec "/openapi.json" = true ∧
    checkForMeaningfulChanges "/openapi.json" ⟨none⟩ none
        (.netError "timeout") true none = .ok (true, ⟨none⟩, none) :=
  ⟨by decide, (runtime_fetch_failure_assumed_changed "/openapi.json" ⟨none⟩ none
    true none (by decide)).2.1 "timeout"⟩

end Oats
